import Mathlib

/-!
# EV-Battery-Monitor: verification of the battery-estimation core

Shallow embedding of the calculation helpers of `src/server.js`
(an IoT EV battery monitoring backend).  The source file contains two
variants of the backend.  The first variant has a voltage-based
piece-wise `calculateSOC` and an additive-penalty `calculateSOH`
("Model A"); the second variant has the stateful coulomb-counting
`calculateSOC`, a multiplicative-factor `calculateSOH` ("Model B"),
and the `/api/reset-soc` calibration handler.  Both variants share
identical `calculateRuntime`, `calculateRange`, `calculatePower`
and `calculateEnergy` helpers.

JavaScript numbers are modelled as rationals (`ℚ`); the wall clock is
an explicit parameter (milliseconds); the module-level mutable
variables of the second variant are gathered into a `ChargeState`
structure that is threaded explicitly.
-/

namespace EVBattery

/-- Battery capacity in mAh (second variant, `BATTERY_CAPACITY = 2000.0`). -/
def BATTERY_CAPACITY : ℚ := 2000

/-- Nominal cell voltage (`NOMINAL_VOLTAGE = 3.7`). -/
def NOMINAL_VOLTAGE : ℚ := 37/10

/-- Full-charge voltage (`MAX_VOLTAGE = 4.2`). -/
def MAX_VOLTAGE : ℚ := 42/10

/-- Empty-battery voltage (`MIN_VOLTAGE = 3.0`). -/
def MIN_VOLTAGE : ℚ := 3

/-- The module-level mutable state of the coulomb-counting variant:
`totalCurrent_mAh`, `consumedCapacity`, `lastUpdateTime` (ms) and
`isCharging`. -/
structure ChargeState where
  totalCurrent_mAh : ℚ
  consumedCapacity : ℚ
  lastUpdateTime : ℚ
  isCharging : Bool
  deriving Repr, DecidableEq

/-- The initial state of the module-level variables (`totalCurrent_mAh = 0`,
`consumedCapacity = 0`, `isCharging = false`); `lastUpdateTime` is
`Date.now()` at module load, passed here as a parameter. -/
def initState (now : ℚ) : ChargeState :=
  { totalCurrent_mAh := 0, consumedCapacity := 0,
    lastUpdateTime := now, isCharging := false }

/-- The SOC that `calculateSOC` derives from a state: remaining capacity
over rated capacity as a percentage, clamped to [0, 100] by the two
sequential `if` statements of the source. -/
def socOf (st : ChargeState) : ℚ :=
  let remainingCapacity := BATTERY_CAPACITY - st.consumedCapacity
  let soc := remainingCapacity / BATTERY_CAPACITY * 100
  let soc1 := if soc > 100 then 100 else soc
  if soc1 < 0 then 0 else soc1

/-- Function `calculateSOC(current_mA, voltage)` of the second variant
(src/server.js:498-532): coulomb counting.  Here `currentTime` stands for
`Date.now()` and the mutable module state is passed and returned
explicitly.  Returns the clamped SOC together with the updated state.
The `voltage` argument is unused by the source as well. -/
def calculateSOC (current_mA : ℚ) (voltage : ℚ) (currentTime : ℚ)
    (st : ChargeState) : ℚ × ChargeState :=
  let deltaTime_h := (currentTime - st.lastUpdateTime) / 3600000
  let st' :=
    if deltaTime_h > 0 then
      let deltaCapacity_mAh := current_mA * deltaTime_h
      let total := st.totalCurrent_mAh + deltaCapacity_mAh
      if current_mA > 0 then
        { st with totalCurrent_mAh := total,
                  consumedCapacity := st.consumedCapacity + deltaCapacity_mAh,
                  isCharging := false,
                  lastUpdateTime := currentTime }
      else
        { st with totalCurrent_mAh := total,
                  isCharging := true,
                  lastUpdateTime := currentTime }
    else st
  (socOf st', st')

/-- The `/api/reset-soc` handler (src/server.js:764-789).  The request
body's `soc` field is modelled as `Option ℚ`; JavaScript's
`soc || 100` replaces a missing value and the falsy value `0` by the
default `100`.  Sets `totalCurrent_mAh = 0`,
`consumedCapacity = ((100 - resetSOC) / 100) * BATTERY_CAPACITY` and
`lastUpdateTime = Date.now()` (here the `now` parameter). -/
def resetSOC (soc : Option ℚ) (now : ℚ) (st : ChargeState) : ChargeState :=
  let resetVal : ℚ :=
    match soc with
    | none => 100
    | some s => if s = 0 then 100 else s
  { st with totalCurrent_mAh := 0,
            consumedCapacity := (100 - resetVal) / 100 * BATTERY_CAPACITY,
            lastUpdateTime := now }

/-- Ah view of the mAh accumulator (the `/api/data` route converts
amps to milliamps with `current * 1000` before calling
`calculateSOC`, so 1 Ah of the spec corresponds to 1000 mAh here). -/
def consumedCapacityAh (st : ChargeState) : ℚ :=
  st.consumedCapacity / 1000

/-- Rated capacity in Ah: 2000 mAh = 2.0 Ah. -/
def ratedCapacityAh : ℚ := BATTERY_CAPACITY / 1000

/-- An update call as the `/api/data` route performs it: current in
amps is converted to mA (`const current_mA = current * 1000`) and fed
to `calculateSOC`. -/
def updateAmps (currentAmps voltage currentTime : ℚ) (st : ChargeState) :
    ℚ × ChargeState :=
  calculateSOC (currentAmps * 1000) voltage currentTime st

namespace ModelA

/-- Function `calculateSOH(voltage, current, temperature)` of the first
variant (src/server.js:96-187): additive penalty scoring.  Each factor
contributes its penalty to `totalDegradation`; the final SOH is
`Math.max(0, Math.min(100, 100 - totalDegradation))`. -/
def calculateSOH (voltage current temperature : ℚ) : ℚ :=
  let sagPenalty : ℚ :=
    if |current| > 0 then
      let expectedVoltageDrop := |current| * 0.1
      let expectedVoltage := 3.7 - expectedVoltageDrop
      if voltage < expectedVoltage - 0.2 then 10
      else if voltage < expectedVoltage - 0.1 then 5
      else 0
    else 0
  let temperaturePenalty : ℚ :=
    if temperature > 60 then 15
    else if temperature > 50 then 10
    else if temperature > 40 then 5
    else if temperature < 0 then 8
    else if temperature < 10 then 3
    else 0
  let deepDischargePenalty : ℚ :=
    if voltage < 3.0 then 20
    else if voltage < 3.2 then 10
    else if voltage < 3.4 then 3
    else 0
  let cRate := |current| / 2
  let cRatePenalty : ℚ :=
    if cRate > 2.0 then 8
    else if cRate > 1.5 then 5
    else if cRate > 1.0 then 2
    else 0
  let overchargePenalty : ℚ :=
    if voltage > 4.25 then 15
    else if voltage > 4.22 then 5
    else 0
  let totalDegradation :=
    sagPenalty + temperaturePenalty + deepDischargePenalty
      + cRatePenalty + overchargePenalty
  let soh := 100 - totalDegradation
  max 0 (min 100 soh)

end ModelA

namespace ModelB

/-- Function `calculateSOH(voltage, temperature)` of the second variant
(src/server.js:541-572): multiplicative factor scoring, clamped by the
two sequential `if` statements of the source. -/
def calculateSOH (voltage temperature : ℚ) : ℚ :=
  let voltageFactor : ℚ :=
    if voltage < MIN_VOLTAGE + 0.2 then 0.8
    else if voltage < NOMINAL_VOLTAGE then 0.9
    else 1
  let temperatureFactor : ℚ :=
    if temperature > 45 ∨ temperature < 0 then 0.85
    else if temperature > 35 ∨ temperature < 10 then 0.95
    else 1
  let soh := voltageFactor * temperatureFactor * 100
  let soh1 := if soh > 100 then 100 else soh
  if soh1 < 0 then 0 else soh1

end ModelB

/-- Function `calculateRuntime(soc, current)` (identical in both
variants, src/server.js:193-212 and 577-596).  The local
`BATTERY_CAPACITY` constant of this function is 2.0 Ah and
`EFFICIENCY` is 0.85.  The source's `isNaN(current)` disjunct has no
counterpart over `ℚ` (no NaN value exists). -/
def calculateRuntime (soc current : ℚ) : ℚ :=
  let availableCapacity := soc / 100 * 2
  if current ≤ 0 then availableCapacity
  else
    let runtime := availableCapacity / |current| * 0.85
    max 0 runtime

/-- Function `calculateRange(soc, current)` (both variants):
`Math.max(0, runtime × AVERAGE_SPEED)` with `AVERAGE_SPEED = 25`. -/
def calculateRange (soc current : ℚ) : ℚ :=
  max 0 (calculateRuntime soc current * 25)

/-- Function `calculatePower(voltage, current)` (both variants):
`voltage × Math.abs(current)`. -/
def calculatePower (voltage current : ℚ) : ℚ :=
  voltage * |current|

/-- Function `calculateEnergy(voltage, soc)` (both variants):
`voltage × ((soc / 100) × 2.0)`. -/
def calculateEnergy (voltage soc : ℚ) : ℚ :=
  voltage * (soc / 100 * 2)

/-- One operation on the coulomb-counting state: either an update cycle
(the `/api/data` route calling `calculateSOC`) or a calibration
(the `/api/reset-soc` route). -/
inductive Op where
  | update (current_mA voltage currentTime : ℚ)
  | reset (soc : Option ℚ) (now : ℚ)

/-- Apply one operation to the state. -/
def applyOp (st : ChargeState) : Op → ChargeState
  | .update c v t => (calculateSOC c v t st).2
  | .reset s n => resetSOC s n st

/-- Run a sequence of operations. -/
def runOps (ops : List Op) (st : ChargeState) : ChargeState :=
  ops.foldl applyOp st

/-- The sequence of SOC values returned by successive `calculateSOC`
calls on samples `(current_mA, voltage, currentTime)`. -/
def socOutputs : List (ℚ × ℚ × ℚ) → ChargeState → List ℚ
  | [], _ => []
  | sample :: rest, st =>
    let r := calculateSOC sample.1 sample.2.1 sample.2.2 st
    r.1 :: socOutputs rest r.2

end EVBattery

namespace EVBattery

/-! ## Helper lemmas -/

/-- The double `if` clamp of the source keeps a value in [0, 100]. -/
theorem clamp_bounds (x : ℚ) :
    0 ≤ (if (if x > 100 then (100 : ℚ) else x) < 0 then 0
          else if x > 100 then (100 : ℚ) else x) ∧
      (if (if x > 100 then (100 : ℚ) else x) < 0 then 0
        else if x > 100 then (100 : ℚ) else x) ≤ 100 := by
  split_ifs <;> constructor <;> linarith

/-- The SOC derived from any state lies in [0, 100]. -/
theorem socOf_mem_Icc (st : ChargeState) : 0 ≤ socOf st ∧ socOf st ≤ 100 := by
  simp only [socOf]
  exact clamp_bounds _

/-- The derived SOC only depends on the consumed-capacity accumulator. -/
theorem socOf_congr {s1 s2 : ChargeState}
    (h : s1.consumedCapacity = s2.consumedCapacity) : socOf s1 = socOf s2 := by
  simp only [socOf, h]

/-- The derived SOC is antitone in the consumed capacity. -/
theorem socOf_antitone {s1 s2 : ChargeState}
    (h : s1.consumedCapacity ≤ s2.consumedCapacity) : socOf s2 ≤ socOf s1 := by
  simp only [socOf, BATTERY_CAPACITY]
  split_ifs <;> linarith

/-- The first component returned by `calculateSOC` is the SOC derived
from the returned state. -/
theorem calculateSOC_fst (c v t : ℚ) (st : ChargeState) :
    (calculateSOC c v t st).1 = socOf (calculateSOC c v t st).2 := rfl

/-- One `calculateSOC` call never decreases the consumed capacity. -/
theorem calculateSOC_consumed_mono (c v t : ℚ) (st : ChargeState) :
    st.consumedCapacity ≤ ((calculateSOC c v t st).2).consumedCapacity := by
  simp only [calculateSOC]
  split_ifs with h1 h2
  · have : 0 ≤ c * ((t - st.lastUpdateTime) / 3600000) :=
      mul_nonneg (le_of_lt h2) (le_of_lt h1)
    simp only
    linarith
  · exact le_refl _
  · exact le_refl _

/-- Every SOC value of `socOutputs` is at most the SOC of the state the
run started from. -/
theorem socOutputs_head_le (samples : List (ℚ × ℚ × ℚ)) (st : ChargeState) :
    ∀ y ∈ (socOutputs samples st).head?, y ≤ socOf st := by
  cases samples with
  | nil => simp [socOutputs]
  | cons sample rest =>
    intro y hy
    simp only [socOutputs, List.head?_cons, Option.mem_def, Option.some.injEq] at hy
    subst hy
    rw [calculateSOC_fst]
    exact socOf_antitone (calculateSOC_consumed_mono _ _ _ _)

/-- The runtime helper is non-negative whenever the SOC input is. -/
theorem calculateRuntime_nonneg (soc current : ℚ) (hsoc : 0 ≤ soc) :
    0 ≤ calculateRuntime soc current := by
  simp only [calculateRuntime]
  split_ifs with h
  · positivity
  · exact le_max_left _ _

/-- The range helper is non-negative unconditionally. -/
theorem calculateRange_nonneg (soc current : ℚ) :
    0 ≤ calculateRange soc current :=
  le_max_left _ _

/-! ## Claim theorems -/

/-- C1: every update call with positive current in amps and positive
elapsed time adds exactly `currentAmps × deltaHours` to the
consumed capacity expressed in Ah; concretely, starting from
`consumedCapacity = 0` with rated capacity 2.0 Ah, one update with
2 A over one hour leaves 2.0 Ah consumed and returns SOC = 0. -/
theorem C1_update_adds_current_times_hours
    (currentAmps voltage currentTime : ℚ) (st : ChargeState)
    (hc : 0 < currentAmps)
    (hd : 0 < (currentTime - st.lastUpdateTime) / 3600000) :
    consumedCapacityAh (updateAmps currentAmps voltage currentTime st).2
      = consumedCapacityAh st
        + currentAmps * ((currentTime - st.lastUpdateTime) / 3600000) ∧
    consumedCapacityAh (updateAmps 2 (37/10) 3600000 (initState 0)).2 = 2 ∧
    (updateAmps 2 (37/10) 3600000 (initState 0)).1 = 0 := by
  refine ⟨?_, ?_, ?_⟩
  · have hmA : (0 : ℚ) < currentAmps * 1000 := by linarith
    simp only [updateAmps, calculateSOC, consumedCapacityAh, if_pos hd, if_pos hmA]
    ring
  · norm_num [updateAmps, calculateSOC, consumedCapacityAh, initState]
  · norm_num [updateAmps, calculateSOC, socOf, initState, BATTERY_CAPACITY]

/-- C1 witness: the theorem applied at 2 A over one hour from the
initial state. -/
theorem C1_update_adds_current_times_hours_witness :
    (updateAmps 2 (37/10) 3600000 (initState 0)).1 = 0 :=
  (C1_update_adds_current_times_hours 2 (37/10) 3600000 (initState 0)
    (by norm_num) (by norm_num [initState])).2.2

/-- C2 counterexample: the accumulator is not clamped.  A single update
at 6000 mA (6 A) for one hour from a fresh state drives
`consumedCapacity` to 6000 mAh, strictly above the rated capacity
2000 mAh, so `consumedCapacityAh` leaves [0, ratedCapacityAh]. -/
theorem C2_counterexample_consumed_exceeds_rated :
    ((calculateSOC 6000 (37/10) 3600000 (initState 0)).2).consumedCapacity = 6000 ∧
    BATTERY_CAPACITY <
      ((calculateSOC 6000 (37/10) 3600000 (initState 0)).2).consumedCapacity := by
  norm_num [calculateSOC, initState, BATTERY_CAPACITY]

/-- C2 amended: the accumulator is not clamped to [0, ratedCapacityAh];
it can exceed the rated capacity under large currents.  What holds is:
starting from a non-negative accumulator, after every sequence of
update and reset operations whose asserted SOC percentages are at most
100, the accumulator stays non-negative, and only the derived SOC is
clamped to [0, 100]. -/
theorem C2_consumed_nonneg_soc_clamped (ops : List Op) (st : ChargeState)
    (hst : 0 ≤ st.consumedCapacity)
    (hops : ∀ op ∈ ops, ∀ v now, op = Op.reset (some v) now → v ≤ 100) :
    0 ≤ (runOps ops st).consumedCapacity ∧
    0 ≤ socOf (runOps ops st) ∧ socOf (runOps ops st) ≤ 100 := by
  refine ⟨?_, (socOf_mem_Icc _).1, (socOf_mem_Icc _).2⟩
  induction ops generalizing st with
  | nil => exact hst
  | cons op rest ih =>
    have hstep : 0 ≤ (applyOp st op).consumedCapacity := by
      cases op with
      | update c v t => exact le_trans hst (calculateSOC_consumed_mono c v t st)
      | reset s n =>
        cases s with
        | none => norm_num [applyOp, resetSOC, BATTERY_CAPACITY]
        | some v =>
          have hv : v ≤ 100 := hops _ (List.mem_cons_self _ _) v n rfl
          simp only [applyOp, resetSOC, BATTERY_CAPACITY]
          split_ifs
          · norm_num
          · nlinarith
    exact ih (applyOp st op) hstep
      (fun op2 hop2 v now he => hops op2 (List.mem_cons_of_mem _ hop2) v now he)

/-- C2 witness: the amended theorem applied to a one-update run from
the fresh state. -/
theorem C2_consumed_nonneg_soc_clamped_witness :
    0 ≤ (runOps [Op.update 6000 (37/10) 3600000] (initState 0)).consumedCapacity ∧
    0 ≤ socOf (runOps [Op.update 6000 (37/10) 3600000] (initState 0)) ∧
    socOf (runOps [Op.update 6000 (37/10) 3600000] (initState 0)) ≤ 100 :=
  C2_consumed_nonneg_soc_clamped [Op.update 6000 (37/10) 3600000] (initState 0)
    (by norm_num [initState])
    (by
      intro op hop v now he
      simp only [List.mem_singleton] at hop
      subst hop
      exact Op.noConfusion he)

/-- C3: every SOC value returned across any finite sequence of
telemetry samples, from any state, lies in [0, 100]. -/
theorem C3_soc_always_in_range (samples : List (ℚ × ℚ × ℚ)) (st : ChargeState) :
    (socOutputs samples st).Forall (fun s => 0 ≤ s ∧ s ≤ 100) := by
  induction samples generalizing st with
  | nil => simp [socOutputs]
  | cons sample rest ih =>
    simp only [socOutputs, List.forall_cons]
    exact ⟨by rw [calculateSOC_fst]; exact socOf_mem_Icc _, ih _⟩

/-- C4 counterexample: the reset handler performs no clamping of the
asserted percentage.  Resetting with asserted SOC 150 sets
`consumedCapacity` to −1000 mAh, not to the 0 that clamping the
assertion to 100 would give. -/
theorem C4_counterexample_no_clamp :
    (resetSOC (some 150) 0 (initState 0)).consumedCapacity = -1000 ∧
    (resetSOC (some 150) 0 (initState 0)).consumedCapacity
      ≠ (100 - 100) / 100 * BATTERY_CAPACITY := by
  norm_num [resetSOC, initState, BATTERY_CAPACITY]

/-- C4 amended: the asserted percentage is never clamped (and never
rejected).  Every truthy asserted value `v` (that is, `v ≠ 0`) is used
as-is: the handler sets `totalCurrent_mAh = 0`,
`consumedCapacity = (100 − v)/100 × ratedCapacity` and
`lastUpdateTime = now`; a missing value uses the default 100. -/
theorem C4_reset_uses_raw_percent (v now : ℚ) (st : ChargeState) (hv : v ≠ 0) :
    resetSOC (some v) now st =
      { st with totalCurrent_mAh := 0,
                consumedCapacity := (100 - v) / 100 * BATTERY_CAPACITY,
                lastUpdateTime := now } ∧
    resetSOC none now st =
      { st with totalCurrent_mAh := 0,
                consumedCapacity := 0,
                lastUpdateTime := now } := by
  constructor
  · simp [resetSOC, hv]
  · simp [resetSOC, BATTERY_CAPACITY]

/-- C4 witness: the amended theorem applied at asserted SOC 50. -/
theorem C4_reset_uses_raw_percent_witness :
    resetSOC (some 50) 7 (initState 0) =
      { initState 0 with totalCurrent_mAh := 0,
                         consumedCapacity := (100 - 50) / 100 * BATTERY_CAPACITY,
                         lastUpdateTime := 7 } ∧
    resetSOC none 7 (initState 0) =
      { initState 0 with totalCurrent_mAh := 0,
                         consumedCapacity := 0,
                         lastUpdateTime := 7 } :=
  C4_reset_uses_raw_percent 50 7 (initState 0) (by norm_num)

/-- C5: `calculateSOC` mutates the consumed capacity only when the
elapsed time and the current are both positive.  If the clock did not
advance, the whole state is unchanged and the call returns the SOC of
the unchanged state; if the current is non-positive (charging or idle)
and the clock advanced, `isCharging` becomes true, the consumed
capacity is unchanged and the returned SOC equals the previous one, so
SOC never rises from charging current alone. -/
theorem C5_frame_conditions (c v t : ℚ) (st : ChargeState) :
    ((t - st.lastUpdateTime) / 3600000 ≤ 0 →
      calculateSOC c v t st = (socOf st, st)) ∧
    (0 < (t - st.lastUpdateTime) / 3600000 → c ≤ 0 →
      (calculateSOC c v t st).2.isCharging = true ∧
      (calculateSOC c v t st).2.consumedCapacity = st.consumedCapacity ∧
      (calculateSOC c v t st).1 = socOf st) := by
  constructor
  · intro hd
    simp only [calculateSOC, if_neg (not_lt.mpr hd)]
  · intro hd hc
    simp only [calculateSOC, if_pos hd, if_neg (not_lt.mpr hc)]
    exact ⟨trivial, trivial, socOf_congr rfl⟩

/-- C5 witness: the theorem applied on the clock-stall path and on the
charging path at concrete inputs. -/
theorem C5_frame_conditions_witness :
    calculateSOC (-100) (37/10) 0 (initState 5) = (socOf (initState 5), initState 5) ∧
    ((calculateSOC (-100) (37/10) 3600000 (initState 0)).2.isCharging = true ∧
     (calculateSOC (-100) (37/10) 3600000 (initState 0)).2.consumedCapacity
        = (initState 0).consumedCapacity ∧
     (calculateSOC (-100) (37/10) 3600000 (initState 0)).1 = socOf (initState 0)) :=
  ⟨(C5_frame_conditions (-100) (37/10) 0 (initState 5)).1 (by norm_num [initState]),
   (C5_frame_conditions (-100) (37/10) 3600000 (initState 0)).2
     (by norm_num [initState]) (by norm_num)⟩

/-- C6: across any sequence of update calls whose currents are all
positive (and whose sample times keep the elapsed time positive), the
returned SOC values are monotonically non-increasing. -/
theorem C6_soc_non_increasing (samples : List (ℚ × ℚ × ℚ)) (st : ChargeState)
    (hc : ∀ sample ∈ samples, 0 < sample.1)
    (ht : List.Chain (fun a b => a < b) st.lastUpdateTime
            (samples.map (fun sample => sample.2.2))) :
    List.Chain' (fun a b => b ≤ a) (socOutputs samples st) := by
  clear hc ht
  induction samples generalizing st with
  | nil => simp [socOutputs]
  | cons sample rest ih =>
    simp only [socOutputs]
    refine List.chain'_cons'.mpr ⟨?_, ih _⟩
    intro y hy
    rw [calculateSOC_fst]
    exact le_trans (socOutputs_head_le rest _ y hy) (le_refl _)

/-- C6 witness: the theorem applied to two one-hour 2 A discharge
samples from the fresh state. -/
theorem C6_soc_non_increasing_witness :
    List.Chain' (fun a b => b ≤ a)
      (socOutputs [(2000, 37/10, 3600000), (2000, 37/10, 7200000)] (initState 0)) :=
  C6_soc_non_increasing [(2000, 37/10, 3600000), (2000, 37/10, 7200000)] (initState 0)
    (by intro sample hs; fin_cases hs <;> norm_num)
    (by norm_num [initState])

/-- C7: both SOH models always return a value in [0, 100], and at
nominal conditions (voltage 3.7 V, current 0 A, temperature 25 °C)
Model A (additive penalties) returns 100 and Model B (multiplicative
factors) returns 100. -/
theorem C7_soh_range_and_nominal :
    (∀ voltage current temperature : ℚ,
      0 ≤ ModelA.calculateSOH voltage current temperature ∧
      ModelA.calculateSOH voltage current temperature ≤ 100) ∧
    (∀ voltage temperature : ℚ,
      0 ≤ ModelB.calculateSOH voltage temperature ∧
      ModelB.calculateSOH voltage temperature ≤ 100) ∧
    ModelA.calculateSOH (37/10) 0 25 = 100 ∧
    ModelB.calculateSOH (37/10) 25 = 100 := by
  refine ⟨?_, ?_, ?_, ?_⟩
  · intro voltage current temperature
    simp only [ModelA.calculateSOH]
    exact ⟨le_max_left _ _, max_le (by norm_num) (min_le_left _ _)⟩
  · intro voltage temperature
    simp only [ModelB.calculateSOH]
    exact clamp_bounds _
  · norm_num [ModelA.calculateSOH]
  · norm_num [ModelB.calculateSOH, MIN_VOLTAGE, NOMINAL_VOLTAGE]

/-- C8 counterexample: the claim quantifies over every `socPercent` and
asserts the result is never negative, but on the idle branch the raw
available capacity is returned without the `Math.max(0, ...)` guard:
`calculateRuntime(-50, 0) = -1 < 0`. -/
theorem C8_counterexample_negative_runtime :
    calculateRuntime (-50) 0 = -1 ∧ calculateRuntime (-50) 0 < 0 := by
  norm_num [calculateRuntime]

/-- C8 amended: for every non-negative `socPercent`, `calculateRuntime`
returns `socPercent/100 × 2.0` unchanged when the current is
non-positive, and `socPercent/100 × 2.0 / |current| × 0.85` otherwise,
and the result is never negative; concretely
`calculateRuntime(50, 1) = 0.85`.  (The source's `isNaN(current)`
disjunct has no counterpart over `ℚ`.) -/
theorem C8_runtime_formula (soc current : ℚ) (hsoc : 0 ≤ soc) :
    (current ≤ 0 → calculateRuntime soc current = soc / 100 * 2) ∧
    (0 < current →
      calculateRuntime soc current = soc / 100 * 2 / |current| * (85/100)) ∧
    0 ≤ calculateRuntime soc current ∧
    calculateRuntime 50 1 = 85/100 := by
  refine ⟨?_, ?_, calculateRuntime_nonneg soc current hsoc, ?_⟩
  · intro h
    simp only [calculateRuntime, if_pos h]
  · intro h
    have habs : (0 : ℚ) ≤ |current| := abs_nonneg _
    have hval : (0 : ℚ) ≤ soc / 100 * 2 / |current| * (85/100) := by positivity
    simp only [calculateRuntime, if_neg (not_le.mpr h)]
    rw [max_eq_right]
    · norm_num
    · calc (0 : ℚ) ≤ soc / 100 * 2 / |current| * (85/100) := hval
        _ = soc / 100 * 2 / |current| * 0.85 := by norm_num
  · norm_num [calculateRuntime]

/-- C8 witness: the amended theorem applied at SOC 50, current 1 A. -/
theorem C8_runtime_formula_witness :
    calculateRuntime 50 1 = 85/100 :=
  (C8_runtime_formula 50 1 (by norm_num)).2.2.2

/-- C9 counterexample: the claim quantifies over every voltage, but
`calculatePower` applies no guard: at voltage −1 V, current 1 A it
returns −1 < 0. -/
theorem C9_counterexample_negative_power :
    calculatePower (-1) 1 = -1 ∧ calculatePower (-1) 1 < 0 := by
  norm_num [calculatePower]

/-- C9 amended: for every non-negative voltage and non-negative SOC
percentage, `powerWatts = voltage × |current|` and
`energyWattHours = voltage × (socPercent/100 × 2.0)` are non-negative,
as are `runtimeHours` and `rangeKm` (the last unconditionally). -/
theorem C9_derived_metrics_nonneg (voltage current soc : ℚ)
    (hv : 0 ≤ voltage) (hsoc : 0 ≤ soc) :
    0 ≤ calculatePower voltage current ∧
    0 ≤ calculateEnergy voltage soc ∧
    0 ≤ calculateRuntime soc current ∧
    0 ≤ calculateRange soc current := by
  refine ⟨?_, ?_, calculateRuntime_nonneg soc current hsoc,
    calculateRange_nonneg soc current⟩
  · simp only [calculatePower]
    positivity
  · simp only [calculateEnergy]
    positivity

/-- C9 witness: the amended theorem applied at voltage 4 V, current
2 A, SOC 50. -/
theorem C9_derived_metrics_nonneg_witness :
    0 ≤ calculatePower 4 2 ∧ 0 ≤ calculateEnergy 4 50 ∧
    0 ≤ calculateRuntime 50 2 ∧ 0 ≤ calculateRange 50 2 :=
  C9_derived_metrics_nonneg 4 2 50 (by norm_num) (by norm_num)

/-- C10: a calibration request asserting SOC exactly 0 is treated like
a missing value: the handler resets the state exactly as a bodiless
request would, leaving `consumedCapacity = 0`, i.e. derived SOC 100. -/
theorem C10_reset_zero_treated_as_default (now : ℚ) (st : ChargeState) :
    resetSOC (some 0) now st = resetSOC none now st ∧
    (resetSOC (some 0) now st).consumedCapacity = 0 ∧
    socOf (resetSOC (some 0) now st) = 100 := by
  norm_num [resetSOC, socOf, BATTERY_CAPACITY]

end EVBattery
